import Mathlib

/-!
Verification of the NPC personality-generation program (src/main.py).
The Python source is shallowly embedded: pure string/arithmetic code becomes
Lean functions on String/Int/Nat; the external OpenAI call is modelled by an
explicit Except-valued outcome supplied as an argument; console input to
create_custom_personality is modelled by an Option argument (none models a
ValueError raised by int()).  Digits and case folding are modelled over ASCII,
matching the character classes actually exercised by the program.
-/

namespace NPCGen

/-- The Personality class (src/main.py lines 35-41): five integer trait
fields, assigned verbatim by the constructor. -/
structure Personality where
  openness : Int
  conscientiousness : Int
  agreeableness : Int
  neuroticism : Int
  extraversion : Int
deriving DecidableEq, Repr

/-- ASCII lower-case code point of a character, used to model the
re.IGNORECASE flag on the trait regular expressions. -/
def lowerNat (c : Char) : Nat :=
  if 65 ≤ c.toNat ∧ c.toNat ≤ 90 then c.toNat + 32 else c.toNat

/-- Case-insensitive character comparison (model of re.IGNORECASE). -/
def charEqCI (a b : Char) : Bool :=
  lowerNat a == lowerNat b

/-- Match a literal pattern case-insensitively at the head of the input,
returning the remaining input on success. -/
def matchLiteralCI : List Char → List Char → Option (List Char)
  | [], rest => some rest
  | _ :: _, [] => none
  | p :: ps, c :: cs => if charEqCI p c then matchLiteralCI ps cs else none

/-- Numeric value of a run of decimal digits, as computed by Python int()
on the captured group. -/
def digitsToNat (ds : List Char) : Nat :=
  ds.foldl (fun a c => a * 10 + (c.toNat - 48)) 0

/-- Attempt the pattern "literal followed by one or more digits" at the
current position: the literal part matches case-insensitively, then the
greedy capture group takes the maximal run of digits (model of the
regular expression Name colon space followed by a digit group). -/
def searchAt (pat s : List Char) : Option Nat :=
  match matchLiteralCI pat s with
  | some rest =>
    let ds := rest.takeWhile Char.isDigit
    if ds.isEmpty then none else some (digitsToNat ds)
  | none => none

/-- Leftmost match: model of re.search, trying each start position from the
left and taking the first position where the whole pattern matches. -/
def reSearch (pat : List Char) : List Char → Option Nat
  | [] => none
  | c :: cs =>
    match searchAt pat (c :: cs) with
    | some v => some v
    | none => reSearch pat cs

/-- ASCII upper-casing of one character. -/
def upperChar (c : Char) : Char :=
  if 97 ≤ c.toNat ∧ c.toNat ≤ 122 then Char.ofNat (c.toNat - 32) else c

/-- ASCII lower-casing of one character. -/
def lowerChar (c : Char) : Char :=
  if 65 ≤ c.toNat ∧ c.toNat ≤ 90 then Char.ofNat (c.toNat + 32) else c

/-- Python str.capitalize(): first character upper-cased, the rest
lower-cased (src/main.py line 104 applies it to each trait key). -/
def capitalize (s : String) : String :=
  match s.data with
  | [] => s
  | c :: cs => String.mk (upperChar c :: cs.map lowerChar)

/-- The search for one trait in the response text (src/main.py line 104):
re.search of the capitalized trait name, a colon, one space, and a digit
group, case-insensitively.  Returns the first match value when present. -/
def findTrait (name : String) (response : String) : Option Nat :=
  reSearch (capitalize name ++ ": ").data response.data

/-- The defaults dictionary (src/main.py lines 95-101), in insertion order. -/
def defaultTraits : List (String × Int) :=
  [("openness", 50), ("conscientiousness", 50), ("agreeableness", 50),
   ("neuroticism", 50), ("extraversion", 50)]

/-- One iteration of the extraction loop (src/main.py lines 103-109): when
the regular expression matches, the entry value is overwritten with the
integer of the first match; otherwise the entry is left at its default.
Python int() on a digit group cannot raise, so the except branch of the
source is unreachable and overwriting is unconditional on a match. -/
def updateTrait (response : String) (entry : String × Int) : String × Int :=
  match findTrait entry.1 response with
  | some v => (entry.1, Int.ofNat v)
  | none => entry

/-- The traits dictionary after the extraction loop has visited all five
keys (src/main.py lines 103-109). -/
def parsedTraits (response : String) : List (String × Int) :=
  defaultTraits.map (updateTrait response)

/-- Dictionary access traits[name] on the parsed dictionary
(src/main.py lines 115-119). -/
def lookupTrait (ts : List (String × Int)) (name : String) : Int :=
  ((ts.find? (fun e => e.1 == name)).map Prod.snd).getD 50

/-- parse_personality_from_response (src/main.py lines 89-120): start from
the defaults dictionary, overwrite each trait found by its regular
expression, and build the Personality from the resulting five values. -/
def parse_personality_from_response (response : String) : Personality :=
  let ts := parsedTraits response
  { openness := lookupTrait ts "openness"
    conscientiousness := lookupTrait ts "conscientiousness"
    agreeableness := lookupTrait ts "agreeableness"
    neuroticism := lookupTrait ts "neuroticism"
    extraversion := lookupTrait ts "extraversion" }

/-- The history truncation of dynamic_interaction (src/main.py lines
128-129), generalized over the bound: the source guards with
len(conversation_history) > 2000 and keeps the trailing slice of the last
2000 characters; the slice of the last maxChars characters of a longer
string is the list with the first length - maxChars characters dropped. -/
def truncate (history : String) (maxChars : Nat) : String :=
  if maxChars < history.length then
    String.mk (history.data.drop (history.length - maxChars))
  else history

/-- fetch_gpt4_response (src/main.py lines 49-65).  The OpenAI chat call is
external; its outcome is modelled as an argument: ok carries the stripped
message content produced by the try block, error carries the message of an
exception raised anywhere inside the try block.  The except branch turns
the exception into the error string returned to the caller. -/
def fetch_gpt4_response (backendOutcome : Except String String) : String :=
  match backendOutcome with
  | .ok content => content
  | .error e => "Error generating response: " ++ e

/-- The prompt construction of generate_personality_profile (src/main.py
lines 72-85), reproduced byte for byte from the f-string template. -/
def buildProfilePrompt (world_description npc_role : String) : String :=
  "\n    Create an NPC for this fictional world: " ++ world_description ++
  "\n    The NPC\x27s role is: " ++ npc_role ++
  "\n    \n    Generate personality traits for this character on a scale from 0 to 100:" ++
  "\n    Openness: (creativity, curiosity) " ++
  "\n    Conscientiousness: (organization, discipline)" ++
  "\n    Agreeableness: (friendliness, cooperation)" ++
  "\n    Neuroticism: (anxiety, emotional instability)" ++
  "\n    Extraversion: (sociability, assertiveness)" ++
  "\n    \n    Also include a brief description of the NPC\x27s behavior and mannerisms." ++
  "\n    Format your response so that each trait has a number followed by a brief explanation." ++
  "\n    "

/-- The prompt construction of dynamic_interaction (src/main.py lines
131-147), reproduced byte for byte from the f-string template; the
conversation_history argument is the already truncated history. -/
def buildDialoguePrompt (npc_personality : Personality)
    (scene_description conversation_history player_input : String) : String :=
  "\n    Scene: " ++ scene_description ++
  "\n    \n    NPC Personality:" ++
  "\n    Openness: " ++ toString npc_personality.openness ++
  "/100 (Higher means more creative, curious)" ++
  "\n    Conscientiousness: " ++ toString npc_personality.conscientiousness ++
  "/100 (Higher means more organized, disciplined)" ++
  "\n    Agreeableness: " ++ toString npc_personality.agreeableness ++
  "/100 (Higher means more friendly, cooperative)" ++
  "\n    Neuroticism: " ++ toString npc_personality.neuroticism ++
  "/100 (Higher means more anxious, emotionally volatile)" ++
  "\n    Extraversion: " ++ toString npc_personality.extraversion ++
  "/100 (Higher means more sociable, outgoing)" ++
  "\n    \n    Conversation history:\n    " ++ conversation_history ++
  "\n    \n    Player says: \"" ++ player_input ++ "\"" ++
  "\n    \n    Respond as this NPC would, keeping responses concise (1-3 sentences). " ++
  "Stay in character based on personality traits. Do not include \"NPC:\" before your response.\n    "

/-- The prompt actually sent by dynamic_interaction (src/main.py lines
122-150): the dialogue template applied to the history truncated at 2000
characters. -/
def dynamic_interaction_prompt (npc_personality : Personality)
    (scene_description conversation_history player_input : String) : String :=
  buildDialoguePrompt npc_personality scene_description
    (truncate conversation_history 2000) player_input

/-- The clamping expression max(0, min(100, t)) applied to each manually
entered trait (src/main.py line 170). -/
def clampTrait (t : Int) : Int :=
  max 0 (min 100 t)

/-- create_custom_personality (src/main.py lines 154-181).  The five int()
conversions of console input are modelled by the argument: some carries
the five parsed integers, none models a ValueError raised by any of the
int() calls, in which case the all-default record is returned.  On
success every entered value is clamped to the range 0 to 100 before the
record is constructed. -/
def create_custom_personality (inputs : Option (Int × Int × Int × Int × Int)) :
    Personality :=
  match inputs with
  | some (o, c, a, n, e) =>
    { openness := clampTrait o
      conscientiousness := clampTrait c
      agreeableness := clampTrait a
      neuroticism := clampTrait n
      extraversion := clampTrait e }
  | none => ⟨50, 50, 50, 50, 50⟩

lemma updateTrait_fst (s : String) (e : String × Int) : (updateTrait s e).1 = e.1 := by
  cases h : findTrait e.1 s <;> simp [updateTrait, h]

lemma updateTrait_snd (s name : String) (d : Int) :
    (updateTrait s (name, d)).2 = ((findTrait name s).map Int.ofNat).getD d := by
  cases h : findTrait name s <;> simp [updateTrait, h]

lemma parse_openness (s : String) :
    (parse_personality_from_response s).openness =
      ((findTrait "openness" s).map Int.ofNat).getD 50 := by
  simp [parse_personality_from_response, parsedTraits, defaultTraits, lookupTrait,
    List.find?, updateTrait_fst, updateTrait_snd]

lemma parse_conscientiousness (s : String) :
    (parse_personality_from_response s).conscientiousness =
      ((findTrait "conscientiousness" s).map Int.ofNat).getD 50 := by
  simp [parse_personality_from_response, parsedTraits, defaultTraits, lookupTrait,
    List.find?, updateTrait_fst, updateTrait_snd]

lemma parse_agreeableness (s : String) :
    (parse_personality_from_response s).agreeableness =
      ((findTrait "agreeableness" s).map Int.ofNat).getD 50 := by
  simp [parse_personality_from_response, parsedTraits, defaultTraits, lookupTrait,
    List.find?, updateTrait_fst, updateTrait_snd]

lemma parse_neuroticism (s : String) :
    (parse_personality_from_response s).neuroticism =
      ((findTrait "neuroticism" s).map Int.ofNat).getD 50 := by
  simp [parse_personality_from_response, parsedTraits, defaultTraits, lookupTrait,
    List.find?, updateTrait_fst, updateTrait_snd]

lemma parse_extraversion (s : String) :
    (parse_personality_from_response s).extraversion =
      ((findTrait "extraversion" s).map Int.ofNat).getD 50 := by
  simp [parse_personality_from_response, parsedTraits, defaultTraits, lookupTrait,
    List.find?, updateTrait_fst, updateTrait_snd]

lemma parse_fields (s : String) :
    parse_personality_from_response s =
      { openness := ((findTrait "openness" s).map Int.ofNat).getD 50
        conscientiousness := ((findTrait "conscientiousness" s).map Int.ofNat).getD 50
        agreeableness := ((findTrait "agreeableness" s).map Int.ofNat).getD 50
        neuroticism := ((findTrait "neuroticism" s).map Int.ofNat).getD 50
        extraversion := ((findTrait "extraversion" s).map Int.ofNat).getD 50 } := by
  have ho := parse_openness s
  have hc := parse_conscientiousness s
  have ha := parse_agreeableness s
  have hn := parse_neuroticism s
  have he := parse_extraversion s
  cases hp : parse_personality_from_response s
  rw [hp] at ho hc ha hn he
  simp_all

lemma string_length_eq (h : String) : h.length = h.data.length := rfl

lemma data_mk (l : List Char) : (String.mk l).data = l := rfl

lemma string_eq_of_data (s t : String) (h : s.data = t.data) : s = t := by
  cases s
  cases t
  exact congrArg String.mk h

lemma truncate_of_le (h : String) (n : Nat) (hle : h.length ≤ n) : truncate h n = h := by
  unfold truncate
  rw [if_neg (by omega)]

lemma truncate_data_of_lt (h : String) (n : Nat) (hlt : n < h.length) :
    (truncate h n).data = h.data.drop (h.length - n) := by
  unfold truncate
  rw [if_pos hlt]

lemma truncate_length_le (h : String) (n : Nat) : (truncate h n).length ≤ n := by
  unfold truncate
  split
  · rename_i hlt
    simp only [string_length_eq, data_mk, List.length_drop] at hlt ⊢
    omega
  · rename_i hge
    omega

lemma replicate_len : (String.mk (List.replicate 2500 'A')).length = 2500 := by
  rw [string_length_eq, data_mk, List.length_replicate]

lemma getD_map_ofNat_nonneg (x : Option Nat) : 0 ≤ ((x.map Int.ofNat).getD 50) := by
  cases x with
  | none => norm_num
  | some v => simp


/-- C1 counterexample: on the input "Openness: 150" the record returned by
parse_personality_from_response carries openness = 150, strictly above 100,
so the claimed clamp to the range 0 to 100 does not happen. -/
theorem c1_counterexample_unclamped :
    100 < (parse_personality_from_response "Openness: 150").openness := by decide

/-- C1 (amended): parse_personality_from_response performs no clamping: a
trait whose pattern matches keeps the matched integer exactly as parsed,
even when it exceeds 100; the only bound that does hold is that every
field of the record is non-negative. -/
theorem c1_amended_matched_value_kept_unclamped (s : String) (vo vc va vn ve : Nat) :
    (findTrait "openness" s = some vo →
      (parse_personality_from_response s).openness = Int.ofNat vo) ∧
    (findTrait "conscientiousness" s = some vc →
      (parse_personality_from_response s).conscientiousness = Int.ofNat vc) ∧
    (findTrait "agreeableness" s = some va →
      (parse_personality_from_response s).agreeableness = Int.ofNat va) ∧
    (findTrait "neuroticism" s = some vn →
      (parse_personality_from_response s).neuroticism = Int.ofNat vn) ∧
    (findTrait "extraversion" s = some ve →
      (parse_personality_from_response s).extraversion = Int.ofNat ve) ∧
    (0 ≤ (parse_personality_from_response s).openness ∧
     0 ≤ (parse_personality_from_response s).conscientiousness ∧
     0 ≤ (parse_personality_from_response s).agreeableness ∧
     0 ≤ (parse_personality_from_response s).neuroticism ∧
     0 ≤ (parse_personality_from_response s).extraversion) := by
  refine ⟨?_, ?_, ?_, ?_, ?_, ?_, ?_, ?_, ?_, ?_⟩
  · intro h
    rw [parse_openness, h]
    rfl
  · intro h
    rw [parse_conscientiousness, h]
    rfl
  · intro h
    rw [parse_agreeableness, h]
    rfl
  · intro h
    rw [parse_neuroticism, h]
    rfl
  · intro h
    rw [parse_extraversion, h]
    rfl
  · rw [parse_openness]
    exact getD_map_ofNat_nonneg _
  · rw [parse_conscientiousness]
    exact getD_map_ofNat_nonneg _
  · rw [parse_agreeableness]
    exact getD_map_ofNat_nonneg _
  · rw [parse_neuroticism]
    exact getD_map_ofNat_nonneg _
  · rw [parse_extraversion]
    exact getD_map_ofNat_nonneg _

/-- Witness for the amended C1: a response carrying all five traits with
out-of-range values keeps every one of them unclamped in the record. -/
theorem c1_amended_witness :
    (parse_personality_from_response
      "Openness: 150 Conscientiousness: 200 Agreeableness: 101 Neuroticism: 999 Extraversion: 123").openness = Int.ofNat 150 ∧
    (parse_personality_from_response
      "Openness: 150 Conscientiousness: 200 Agreeableness: 101 Neuroticism: 999 Extraversion: 123").conscientiousness = Int.ofNat 200 ∧
    (parse_personality_from_response
      "Openness: 150 Conscientiousness: 200 Agreeableness: 101 Neuroticism: 999 Extraversion: 123").agreeableness = Int.ofNat 101 ∧
    (parse_personality_from_response
      "Openness: 150 Conscientiousness: 200 Agreeableness: 101 Neuroticism: 999 Extraversion: 123").neuroticism = Int.ofNat 999 ∧
    (parse_personality_from_response
      "Openness: 150 Conscientiousness: 200 Agreeableness: 101 Neuroticism: 999 Extraversion: 123").extraversion = Int.ofNat 123 := by
  have h := c1_amended_matched_value_kept_unclamped
    "Openness: 150 Conscientiousness: 200 Agreeableness: 101 Neuroticism: 999 Extraversion: 123"
    150 200 101 999 123
  exact ⟨h.1 (by decide), h.2.1 (by decide), h.2.2.1 (by decide), h.2.2.2.1 (by decide),
    h.2.2.2.2.1 (by decide)⟩


/-- C2: parse_personality_from_response is total and always returns a fully
populated record: each trait equals the integer of the first match of its
pattern when one exists, and the default 50 otherwise; in particular the
input "Openness: 20, very curious." yields the record with openness 20 and
all other traits 50. -/
theorem c2_extract_total_lenient :
    (∀ s : String, parse_personality_from_response s =
      { openness := ((findTrait "openness" s).map Int.ofNat).getD 50
        conscientiousness := ((findTrait "conscientiousness" s).map Int.ofNat).getD 50
        agreeableness := ((findTrait "agreeableness" s).map Int.ofNat).getD 50
        neuroticism := ((findTrait "neuroticism" s).map Int.ofNat).getD 50
        extraversion := ((findTrait "extraversion" s).map Int.ofNat).getD 50 }) ∧
    parse_personality_from_response "Openness: 20, very curious." =
      ⟨20, 50, 50, 50, 50⟩ :=
  ⟨parse_fields, by decide⟩

/-- C3: when all five trait patterns match in the input, the returned record
holds exactly the integer of the first match of each trait. -/
theorem c3_all_traits_found (s : String) (vo vc va vn ve : Nat)
    (ho : findTrait "openness" s = some vo)
    (hc : findTrait "conscientiousness" s = some vc)
    (ha : findTrait "agreeableness" s = some va)
    (hn : findTrait "neuroticism" s = some vn)
    (he : findTrait "extraversion" s = some ve) :
    parse_personality_from_response s = ⟨Int.ofNat vo, Int.ofNat vc, Int.ofNat va,
      Int.ofNat vn, Int.ofNat ve⟩ := by
  rw [parse_fields, ho, hc, ha, hn, he]
  rfl

/-- Witness for C3: the scenario input with all five traits present yields
the record with exactly the matched values 85, 40, 77, 12, 93. -/
theorem c3_witness :
    parse_personality_from_response
      "Openness: 85 Conscientiousness: 40 Agreeableness: 77 Neuroticism: 12 Extraversion: 93 and is friendly" =
      ⟨85, 40, 77, 12, 93⟩ :=
  c3_all_traits_found _ 85 40 77 12 93 (by decide) (by decide) (by decide)
    (by decide) (by decide)

/-- C4 counterexample: every trait pattern is absent from the empty input,
yet extraction returns the all-default record instead of signaling an
ExtractionError; the code has no strict mode and no onMissing option. -/
theorem c4_counterexample_no_strict_mode :
    parse_personality_from_response "" = ⟨50, 50, 50, 50, 50⟩ := by decide

/-- C4 (amended): the implementation exposes only the lenient policy:
parse_personality_from_response takes no policy option, and even when every
one of the five trait patterns is absent it returns the all-default record
rather than failing. -/
theorem c4_amended_lenient_only (s : String)
    (ho : findTrait "openness" s = none)
    (hc : findTrait "conscientiousness" s = none)
    (ha : findTrait "agreeableness" s = none)
    (hn : findTrait "neuroticism" s = none)
    (he : findTrait "extraversion" s = none) :
    parse_personality_from_response s = ⟨50, 50, 50, 50, 50⟩ := by
  rw [parse_fields, ho, hc, ha, hn, he]
  rfl

/-- Witness for the amended C4: an input mentioning no trait at all yields
the all-default record. -/
theorem c4_amended_witness :
    parse_personality_from_response "The character is a friendly blacksmith." =
      ⟨50, 50, 50, 50, 50⟩ :=
  c4_amended_lenient_only _ (by decide) (by decide) (by decide) (by decide) (by decide)


/-- C5: history truncation returns the history unchanged when it fits the
bound, otherwise exactly the trailing suffix of the bound length; the
result never exceeds the bound, and the 2500-character history truncated
at 2000 is exactly the slice of characters at indices 500 to 2499. -/
theorem c5_truncate_spec (h : String) (n : Nat) :
    (h.length ≤ n → truncate h n = h) ∧
    (truncate h n).length ≤ n ∧
    (n < h.length → (truncate h n).data = h.data.drop (h.length - n)) ∧
    truncate (String.mk (List.replicate 2500 'A')) 2000 =
      String.mk (List.replicate 2000 'A') ∧
    (truncate (String.mk (List.replicate 2500 'A')) 2000).data =
      (List.replicate 2500 'A').drop 500 := by
  refine ⟨truncate_of_le h n, truncate_length_le h n, truncate_data_of_lt h n, ?_, ?_⟩
  · apply string_eq_of_data
    rw [truncate_data_of_lt _ _ (by rw [replicate_len]; norm_num), replicate_len, data_mk,
      data_mk, List.drop_replicate]
  · rw [truncate_data_of_lt _ _ (by rw [replicate_len]; norm_num), replicate_len, data_mk]

/-- Witness for C5: a short history is returned unchanged, and a history one
character over a bound of 3 loses exactly its leading characters. -/
theorem c5_witness :
    truncate "abc" 5 = "abc" ∧ (truncate "abcde" 3).data = "abcde".data.drop 2 :=
  ⟨(c5_truncate_spec "abc" 5).1 (by decide),
   (c5_truncate_spec "abcde" 3).2.2.1 (by decide)⟩

/-- C6: the response gateway never propagates a backend failure: an
exception with message e is converted to the error-carrying string that
prefixes "Error generating response: ", and a successful backend reply is
returned as is. -/
theorem c6_gateway_never_propagates :
    (∀ msg : String,
      fetch_gpt4_response (Except.error msg) = "Error generating response: " ++ msg) ∧
    (∀ content : String, fetch_gpt4_response (Except.ok content) = content) :=
  ⟨fun _ => rfl, fun _ => rfl⟩

/-- C7: create_custom_personality clamps every manually entered value to the
range 0 to 100 before building the record: the record holds exactly the
clamped values, those values always lie in the range, an out-of-range
entry is never stored as entered, and a failed integer parse falls back to
the all-default record. -/
theorem c7_custom_creation_clamps (o c a n e : Int) :
    create_custom_personality (some (o, c, a, n, e)) =
      ⟨clampTrait o, clampTrait c, clampTrait a, clampTrait n, clampTrait e⟩ ∧
    (∀ t : Int, 0 ≤ clampTrait t ∧ clampTrait t ≤ 100) ∧
    ((o < 0 ∨ 100 < o) → (create_custom_personality (some (o, c, a, n, e))).openness ≠ o) ∧
    create_custom_personality none = ⟨50, 50, 50, 50, 50⟩ := by
  refine ⟨rfl, ?_, ?_, rfl⟩
  · intro t
    unfold clampTrait
    rw [max_def, min_def]
    split_ifs <;> omega
  · intro hor
    show clampTrait o ≠ o
    unfold clampTrait
    rw [max_def, min_def]
    split_ifs <;> omega

/-- Witness for C7: the entries 150, -7, 101, 50, 0 are clamped to
100, 0, 100, 50, 0, and in particular 150 is not stored as entered. -/
theorem c7_witness :
    create_custom_personality (some (150, -7, 101, 50, 0)) = ⟨100, 0, 100, 50, 0⟩ ∧
    (create_custom_personality (some (150, -7, 101, 50, 0))).openness ≠ 150 :=
  ⟨by decide, (c7_custom_creation_clamps 150 (-7) 101 50 0).2.2.1 (Or.inr (by norm_num))⟩

/-- C8: history truncation is idempotent: truncating an already truncated
history at the same bound changes nothing. -/
theorem c8_truncate_idempotent (h : String) (n : Nat) :
    truncate (truncate h n) n = truncate h n :=
  truncate_of_le _ _ (truncate_length_le h n)

/-- C9: the two prompt builders are pure functions of their arguments:
identical inputs produce identical prompt strings. -/
theorem c9_prompt_builders_deterministic (w r w2 r2 : String) (p p2 : Personality)
    (sc sc2 hi hi2 inp inp2 : String)
    (hw : w = w2) (hr : r = r2) (hp : p = p2) (hsc : sc = sc2) (hhi : hi = hi2)
    (hinp : inp = inp2) :
    buildProfilePrompt w r = buildProfilePrompt w2 r2 ∧
    buildDialoguePrompt p sc hi inp = buildDialoguePrompt p2 sc2 hi2 inp2 := by
  subst hw hr hp hsc hhi hinp
  exact ⟨rfl, rfl⟩

/-- Witness for C9: repeated calls on equal concrete inputs agree. -/
theorem c9_witness :
    buildProfilePrompt "a medieval fantasy world" "blacksmith" =
      buildProfilePrompt "a medieval fantasy world" "blacksmith" ∧
    buildDialoguePrompt ⟨10, 10, 10, 90, 90⟩ "forge" "You: hi" "hello" =
      buildDialoguePrompt ⟨10, 10, 10, 90, 90⟩ "forge" "You: hi" "hello" :=
  c9_prompt_builders_deterministic "a medieval fantasy world" "blacksmith"
    "a medieval fantasy world" "blacksmith" ⟨10, 10, 10, 90, 90⟩ ⟨10, 10, 10, 90, 90⟩
    "forge" "forge" "You: hi" "You: hi" "hello" "hello" rfl rfl rfl rfl rfl rfl

/-- C10: the trait pattern requires the trait name, a colon, exactly one
space, then digits: neither "Openness:85" (no space) nor "Openness: -5"
(sign before the digits) matches, so those inputs fall back to the default
50, while "Openness: 85" does match; and every field of every extraction
result is a non-negative integer. -/
theorem c10_pattern_colon_space_digits :
    parse_personality_from_response "Openness:85" = ⟨50, 50, 50, 50, 50⟩ ∧
    parse_personality_from_response "Openness: -5" = ⟨50, 50, 50, 50, 50⟩ ∧
    (parse_personality_from_response "Openness: 85").openness = 85 ∧
    ∀ s : String,
      0 ≤ (parse_personality_from_response s).openness ∧
      0 ≤ (parse_personality_from_response s).conscientiousness ∧
      0 ≤ (parse_personality_from_response s).agreeableness ∧
      0 ≤ (parse_personality_from_response s).neuroticism ∧
      0 ≤ (parse_personality_from_response s).extraversion := by
  refine ⟨by decide, by decide, by decide, fun s => ⟨?_, ?_, ?_, ?_, ?_⟩⟩
  · rw [parse_openness]
    exact getD_map_ofNat_nonneg _
  · rw [parse_conscientiousness]
    exact getD_map_ofNat_nonneg _
  · rw [parse_agreeableness]
    exact getD_map_ofNat_nonneg _
  · rw [parse_neuroticism]
    exact getD_map_ofNat_nonneg _
  · rw [parse_extraversion]
    exact getD_map_ofNat_nonneg _

end NPCGen
